import Mathlib

/-!
Verification of the mongodb-vertex-api request handlers (src/main.py).

The Flask handlers are embedded as pure Lean functions.  JSON / BSON
values are modelled by the inductive `Json` (with an `objectId`
constructor for the store-native identifier).  All external effects —
the secret resolver (Google Secret Manager), MongoClient construction,
`collection.aggregate` and `collection.find_one` — are parameters of a
`World` record, and each handler additionally reports how many secret
fetches and document-store calls it performed (`Effects`), mirroring
exactly where `get_secret`, `aggregate` and `find_one` appear in the
Python control flow.  Exceptions are modelled with `Except String`;
the generic `except Exception` blocks of the handlers become the
`.error` branches that produce a 500 response.
-/

set_option autoImplicit false

namespace MongoVertexApi

/-- JSON / BSON values.  `objectId` is the store-native identifier type
(`bson.ObjectId`); it never occurs in request bodies, only in documents
returned by the store. -/
inductive Json where
  | null : Json
  | bool (b : Bool) : Json
  | int (n : Int) : Json
  | str (s : String) : Json
  | objectId (oid : String) : Json
  | arr (xs : List Json) : Json
  | obj (kvs : List (String × Json)) : Json

/-- First-match association-list lookup, the model of Python dict access
(Python dicts have unique keys, so first match is the only match). -/
def lookupKv (key : String) : List (String × Json) → Option Json
  | [] => none
  | kv :: rest => if kv.1 = key then some kv.2 else lookupKv key rest

/-- Python truthiness (`if not x:`) on JSON values: `None`, `False`,
`0`, `""`, `[]` and `` \x7b\x7d `` are falsy. -/
def pyFalsy : Json → Bool
  | .null => true
  | .bool b => !b
  | .int n => n == 0
  | .str s => s == ""
  | .objectId _ => false
  | .arr xs => xs.isEmpty
  | .obj kvs => kvs.isEmpty

mutual

/-- Python `str()` on a JSON / BSON value.  On an `ObjectId` it yields
the plain hex string; container renderings are approximate but total. -/
def pyStr : Json → String
  | .null => "None"
  | .bool true => "True"
  | .bool false => "False"
  | .int n => toString n
  | .str s => s
  | .objectId oid => oid
  | .arr xs => "[" ++ pyStrList xs ++ "]"
  | .obj kvs => "\x7b" ++ pyStrKvs kvs ++ "\x7d"

def pyStrList : List Json → String
  | [] => ""
  | [x] => pyStr x
  | x :: y :: rest => pyStr x ++ ", " ++ pyStrList (y :: rest)

def pyStrKvs : List (String × Json) → String
  | [] => ""
  | [kv] => kv.1 ++ ": " ++ pyStr kv.2
  | kv :: kv2 :: rest => kv.1 ++ ": " ++ pyStr kv.2 ++ ", " ++ pyStrKvs (kv2 :: rest)

end

/-- Python `data.get(key, default)`.  Raises (`.error`) when `data` is
not a dict, as `request.get_json()` may return any JSON value. -/
def pyGet (data : Json) (key : String) (dflt : Json) : Except String Json :=
  match data with
  | .obj kvs => .ok ((lookupKv key kvs).getD dflt)
  | _ => .error "AttributeError: object has no attribute get"

/-- The external world of one request: outcome of the Secret Manager
access (`.error m` = secret missing / access denied / transport error
with underlying message `m`), of `MongoClient` construction, and of the
two document-store calls the handlers make. -/
structure World where
  secretOutcome : Except String String
  connect : String → Except String Unit
  aggregate : List Json → Except String (List Json)
  findOne : Json → Json → Except String (Option Json)

/-- Effect counters: how many secret fetches and document-store calls
(`aggregate` / `find_one`) a handler performed. -/
structure Effects where
  secretFetches : Nat
  storeAccesses : Nat
deriving DecidableEq

/-- An HTTP response: status code and JSON body.  A bare
`return response` in Flask defaults the status to 200. -/
structure HttpResponse where
  status : Nat
  body : Json

/-- The jsonify error bodies of the failure paths: a single
`"error"` field carrying the message. -/
def errBody (msg : String) : Json := .obj [("error", .str msg)]

/-- `get_secret`: catches every Secret Manager exception, logs it and
returns `None`; a success returns the payload string. -/
def get_secret (w : World) : Option String :=
  match w.secretOutcome with
  | .error _ => none
  | .ok v => some v

/-- `get_mongodb_client`: fetches the secret, raises a fixed exception
when it is falsy (`None` or empty), otherwise constructs the client. -/
def get_mongodb_client (w : World) : Except String Unit :=
  match get_secret w with
  | none => .error "MongoDB connection string not found in secrets"
  | some cs =>
    if cs = "" then .error "MongoDB connection string not found in secrets"
    else w.connect cs

/-- Field list of the `$project` document of the `/find_movies` search
pipeline, including the store-computed relevance score. -/
def searchProjectionKvs : List (String × Json) :=
  [("title", .int 1), ("year", .int 1), ("plot", .int 1),
   ("genres", .int 1), ("cast", .int 1), ("directors", .int 1),
   ("rated", .int 1), ("runtime", .int 1),
   ("score", .obj [("$meta", .str "searchScore")])]

/-- The `$project` document of the `/find_movies` search pipeline. -/
def searchProjection : Json := .obj searchProjectionKvs

/-- The `search_pipeline` list of `/find_movies`: `$search` on the fixed
index with a wildcard path, `$limit` with the caller-supplied limit
value (unvalidated), then the projection. -/
def buildSearchPipeline (query lim : Json) : List Json :=
  [ .obj [("$search",
      .obj [("index", .str "movies_search_index"),
            ("text", .obj [("query", query),
                           ("path", .obj [("wildcard", .str "*")])])])],
    .obj [("$limit", lim)],
    .obj [("$project", searchProjection)] ]

/-- The filter of `/find_movie_by_title`: a `$regex` match on `title`
with options `"i"`, the caller-supplied value inserted verbatim. -/
def buildTitleQuery (title : Json) : Json :=
  .obj [("title", .obj [("$regex", title), ("$options", .str "i")])]

/-- The projection of `/find_movie_by_title` (no relevance score). -/
def titleProjection : Json :=
  .obj [("title", .int 1), ("year", .int 1), ("plot", .int 1),
        ("genres", .int 1), ("cast", .int 1), ("directors", .int 1),
        ("rated", .int 1), ("runtime", .int 1)]

/-- Replace the value of every `"_id"` entry by `str(v)` where `v` is
the looked-up identifier (Python dict keys are unique, so at most one
entry changes). -/
def stringifyId (kvs : List (String × Json)) (v : Json) : List (String × Json) :=
  kvs.map (fun kv => if kv.1 = "_id" then (kv.1, Json.str (pyStr v)) else kv)

/-- The `/find_movies` conversion loop body: when the key `"_id"` is
present, replace `result["_id"]` by `str(result["_id"])`; a document
without the key, or a non-dict value, is left unchanged. -/
def convertId : Json → Json
  | .obj kvs =>
    match lookupKv "_id" kvs with
    | some v => .obj (stringifyId kvs v)
    | none => .obj kvs
  | j => j

/-- The `/find_movie_by_title` conversion `movie[id] = str(movie[id])`:
unconditional, so a document without the key raises `KeyError`. -/
def setIdStr : Json → Except String Json
  | .obj kvs =>
    match lookupKv "_id" kvs with
    | some v => .ok (.obj (stringifyId kvs v))
    | none => .error "KeyError: _id"
  | _ => .error "TypeError: object does not support item assignment"

/-- The `/find_movies` handler (POST path; the OPTIONS preflight branch
returns before any of this and is out of scope).  `parsed` is the
outcome of `request.get_json()`: `.error` when the body is absent or
not parseable JSON (the raised exception is caught by the generic
handler). -/
def find_movies (w : World) (parsed : Except String Json) :
    HttpResponse × Effects :=
  match parsed with
  | .error e => (⟨500, errBody e⟩, ⟨0, 0⟩)
  | .ok data =>
    match pyGet data "query" (.str "") with
    | .error e => (⟨500, errBody e⟩, ⟨0, 0⟩)
    | .ok query =>
      match pyGet data "limit" (.int 10) with
      | .error e => (⟨500, errBody e⟩, ⟨0, 0⟩)
      | .ok lim =>
        if pyFalsy query then
          (⟨400, errBody "Query parameter is required"⟩, ⟨0, 0⟩)
        else
          match get_mongodb_client w with
          | .error e => (⟨500, errBody e⟩, ⟨1, 0⟩)
          | .ok _ =>
            match w.aggregate (buildSearchPipeline query lim) with
            | .error e => (⟨500, errBody e⟩, ⟨1, 1⟩)
            | .ok results =>
              let converted := results.map convertId
              (⟨200, .obj [("success", .bool true),
                           ("query", query),
                           ("results", .arr converted),
                           ("count", .int converted.length)]⟩,
               ⟨1, 1⟩)

/-- The `/find_movie_by_title` handler (POST path). -/
def find_movie_by_title (w : World) (parsed : Except String Json) :
    HttpResponse × Effects :=
  match parsed with
  | .error e => (⟨500, errBody e⟩, ⟨0, 0⟩)
  | .ok data =>
    match pyGet data "title" (.str "") with
    | .error e => (⟨500, errBody e⟩, ⟨0, 0⟩)
    | .ok title =>
      if pyFalsy title then
        (⟨400, errBody "Title parameter is required"⟩, ⟨0, 0⟩)
      else
        match get_mongodb_client w with
        | .error e => (⟨500, errBody e⟩, ⟨1, 0⟩)
        | .ok _ =>
          match w.findOne (buildTitleQuery title) titleProjection with
          | .error e => (⟨500, errBody e⟩, ⟨1, 1⟩)
          | .ok none =>
            (⟨200, .obj [("success", .bool false),
                ("message", .str ("Movie with title \"" ++ pyStr title
                  ++ "\" not found"))]⟩,
             ⟨1, 1⟩)
          | .ok (some movie) =>
            match setIdStr movie with
            | .error e => (⟨500, errBody e⟩, ⟨1, 1⟩)
            | .ok movie2 =>
              (⟨200, .obj [("success", .bool true),
                           ("movie", movie2)]⟩,
               ⟨1, 1⟩)

/-- The `/health` handler: a fixed payload, no dependency on the world. -/
def health_check (_w : World) : HttpResponse × Effects :=
  (⟨200, .obj [("status", .str "healthy"),
               ("service", .str "mongodb-vertex-api")]⟩,
   ⟨0, 0⟩)

/-- The field list of a JSON object (empty for non-objects). -/
def fieldsOf : Json → List (String × Json)
  | .obj kvs => kvs
  | _ => []

/-- A record has a string-typed identifier: any `"_id"` field it
carries is a `Json.str`.  Non-objects carry no identifier. -/
def idIsString : Json → Prop
  | .obj kvs => ∀ v, lookupKv "_id" kvs = some v → ∃ s, v = Json.str s
  | _ => True

/-- The document-store side of the `$limit` contract: whenever an
aggregation over a built search pipeline with an integer limit
succeeds, the store returned at most that many documents. -/
def StoreHonorsLimit (w : World) : Prop :=
  ∀ (query : Json) (n : Int) (rs : List Json),
    w.aggregate (buildSearchPipeline query (.int n)) = .ok rs →
    (rs.length : Int) ≤ n

theorem lookupKv_stringifyId (kvs : List (String × Json)) (v : Json) :
    lookupKv "_id" (stringifyId kvs v) =
      (lookupKv "_id" kvs).map (fun _ => Json.str (pyStr v)) := by
  induction kvs with
  | nil => rfl
  | cons kv rest ih =>
    by_cases h : kv.1 = "_id"
    · simp [stringifyId, lookupKv, h]
    · simp only [stringifyId, lookupKv, List.map_cons] at ih ⊢
      simp [h, ih]

theorem stringifyId_stringifyId (kvs : List (String × Json)) (v : Json) :
    stringifyId (stringifyId kvs v) (Json.str (pyStr v)) = stringifyId kvs v := by
  induction kvs with
  | nil => rfl
  | cons kv rest ih =>
    by_cases h : kv.1 = "_id" <;> simp [stringifyId, h, pyStr] at ih ⊢ <;>
      simpa [stringifyId] using ih

theorem idIsString_convertId (j : Json) : idIsString (convertId j) := by
  match j with
  | .obj kvs =>
    cases h : lookupKv "_id" kvs with
    | none =>
      simp only [convertId, h, idIsString]
      intro v hv
      simp [h] at hv
    | some v0 =>
      simp only [convertId, h, idIsString]
      intro v hv
      rw [lookupKv_stringifyId, h] at hv
      exact ⟨pyStr v0, by simpa using hv.symm⟩
  | .null => trivial
  | .bool _ => trivial
  | .int _ => trivial
  | .str _ => trivial
  | .objectId _ => trivial
  | .arr _ => trivial

theorem convertId_convertId (j : Json) : convertId (convertId j) = convertId j := by
  match j with
  | .obj kvs =>
    cases h : lookupKv "_id" kvs with
    | none => simp [convertId, h]
    | some v0 =>
      simp only [convertId, h, lookupKv_stringifyId, Option.map_some]
      exact congrArg Json.obj (stringifyId_stringifyId kvs v0)
  | .null => rfl
  | .bool _ => rfl
  | .int _ => rfl
  | .str _ => rfl
  | .objectId _ => rfl
  | .arr _ => rfl

theorem idIsString_setIdStr (m m2 : Json) (h : setIdStr m = .ok m2) :
    idIsString m2 := by
  match m with
  | .obj kvs =>
    cases h0 : lookupKv "_id" kvs with
    | none => simp [setIdStr, h0] at h
    | some v0 =>
      simp only [setIdStr, h0, Except.ok.injEq] at h
      subst h
      simp only [idIsString]
      intro v hv
      rw [lookupKv_stringifyId, h0] at hv
      exact ⟨pyStr v0, by simpa using hv.symm⟩
  | .null => simp [setIdStr] at h
  | .bool _ => simp [setIdStr] at h
  | .int _ => simp [setIdStr] at h
  | .str _ => simp [setIdStr] at h
  | .objectId _ => simp [setIdStr] at h
  | .arr _ => simp [setIdStr] at h

/-- A world whose store finds nothing: secret resolves, the client
connects, aggregation returns an empty list, and no document matches
the title filter. -/
def wEmptyStore : World :=
  { secretOutcome := .ok "mongodb+srv://user:pw@cluster.example.net"
  , connect := fun _ => .ok ()
  , aggregate := fun _ => .ok []
  , findOne := fun _ _ => .ok none }

/-- A world whose secret store denies access with a concrete
underlying message. -/
def wSecretDenied : World :=
  { secretOutcome := .error "403 permission denied on secret mongodb-connection-string"
  , connect := fun _ => .ok ()
  , aggregate := fun _ => .ok []
  , findOne := fun _ _ => .ok none }

/-- A world whose store enforces the `$limit` stage: aggregation
succeeds (with an empty result) only for a positive integer limit and
rejects anything else, as MongoDB does. -/
def wLimitStore : World :=
  { secretOutcome := .ok "mongodb+srv://user:pw@cluster.example.net"
  , connect := fun _ => .ok ()
  , aggregate := fun stages =>
      match stages with
      | [_, .obj [("$limit", Json.int n)], _] =>
        if 0 < n then .ok [] else .error "BadValue in limit stage"
      | _ => .error "BadValue in limit stage"
  , findOne := fun _ _ => .ok none }

/-- A sample stored document with a store-native `ObjectId`. -/
def movieDoc : Json :=
  .obj [("_id", .objectId "573a1390f29313caabcd4135"),
        ("title", .str "The Matrix"), ("year", .int 1999)]

/-- A world whose store returns `movieDoc` for every aggregation and
every title lookup. -/
def wDocs : World :=
  { secretOutcome := .ok "mongodb+srv://user:pw@cluster.example.net"
  , connect := fun _ => .ok ()
  , aggregate := fun _ => .ok [movieDoc]
  , findOne := fun _ _ => .ok (some movieDoc) }

theorem wLimitStore_honors_limit : StoreHonorsLimit wLimitStore := by
  intro query n rs h
  simp only [wLimitStore, buildSearchPipeline] at h
  split at h
  · simp only [Except.ok.injEq] at h
    subst h
    simpa using le_of_lt (by assumption)
  · exact absurd h (by simp)

/-- C8: the health endpoint returns the fixed payload with status 200
in every process state, performs no secret fetch and no document-store
access, and its outcome is independent of the external world. -/
theorem health_check_fixed (w w2 : World) :
    health_check w =
      (⟨200, .obj [("status", .str "healthy"),
                   ("service", .str "mongodb-vertex-api")]⟩, ⟨0, 0⟩)
    ∧ health_check w = health_check w2 :=
  ⟨rfl, rfl⟩

/-- C9: when the request body fails to parse as JSON, both POST
handlers catch the raised exception generically and answer 500 with an
error body — not the 400 reserved for empty-field validation — and
perform no secret fetch or store access. -/
theorem unparseable_body_500 (w : World) (msg : String) :
    find_movies w (.error msg) = (⟨500, errBody msg⟩, ⟨0, 0⟩)
    ∧ find_movie_by_title w (.error msg) = (⟨500, errBody msg⟩, ⟨0, 0⟩)
    ∧ (find_movies w (.error msg)).1.status ≠ 400
    ∧ (find_movie_by_title w (.error msg)).1.status ≠ 400 :=
  ⟨rfl, rfl, by simp [find_movies], by simp [find_movie_by_title]⟩

/-- C2: a POST to the search endpoint whose query field is empty or
missing is answered 400 with an error body, with zero secret fetches
and zero document-store accesses, and the outcome is the same in every
external world — neither the secret resolver nor the store client is
consulted on this path. -/
theorem find_movies_empty_query_400 (w w2 : World) (kvs : List (String × Json))
    (h : lookupKv "query" kvs = none ∨ lookupKv "query" kvs = some (.str "")) :
    find_movies w (.ok (.obj kvs)) =
      (⟨400, errBody "Query parameter is required"⟩, ⟨0, 0⟩)
    ∧ find_movies w (.ok (.obj kvs)) = find_movies w2 (.ok (.obj kvs)) := by
  have hred : ∀ w3 : World, find_movies w3 (.ok (.obj kvs)) =
      (⟨400, errBody "Query parameter is required"⟩, ⟨0, 0⟩) := by
    intro w3
    rcases h with h | h <;> simp [find_movies, pyGet, pyFalsy, h]
  exact ⟨hred w, (hred w).trans (hred w2).symm⟩

/-- C2 witness: the concrete empty request body. -/
theorem find_movies_empty_query_400_witness :
    (lookupKv "query" [] = none ∨ lookupKv "query" [] = some (.str ""))
    ∧ find_movies wEmptyStore (.ok (.obj [])) =
        (⟨400, errBody "Query parameter is required"⟩, ⟨0, 0⟩) :=
  ⟨Or.inl rfl,
   (find_movies_empty_query_400 wEmptyStore wSecretDenied [] (Or.inl rfl)).1⟩

/-- C1 counterexample: for the non-empty title Zorblax, which the
store matches to no document, the handler answers with HTTP status
200, not the 404 the claim states, even though the body does carry
success=false and the human-readable message. -/
theorem find_movie_by_title_not_found_counterexample :
    (find_movie_by_title wEmptyStore
        (.ok (.obj [("title", Json.str "Zorblax")]))).1.status = 200
    ∧ (200 : Nat) ≠ 404
    ∧ (find_movie_by_title wEmptyStore
        (.ok (.obj [("title", Json.str "Zorblax")]))).1.body =
      .obj [("success", .bool false),
            ("message", .str "Movie with title \"Zorblax\" not found")] :=
  ⟨rfl, by decide, rfl⟩

/-- C1 amended: a non-empty title that matches no document is answered
with HTTP status 200 (the Flask default), success=false and the
human-readable not-found message; the 404 of the claim is not issued
by this code. -/
theorem find_movie_by_title_not_found_200 (w : World)
    (kvs : List (String × Json)) (t cs : String)
    (ht : lookupKv "title" kvs = some (.str t)) (htne : t ≠ "")
    (hsec : w.secretOutcome = .ok cs) (hcs : cs ≠ "")
    (hconn : w.connect cs = .ok ())
    (hfind : w.findOne (buildTitleQuery (.str t)) titleProjection = .ok none) :
    find_movie_by_title w (.ok (.obj kvs)) =
      (⟨200, .obj [("success", .bool false),
          ("message", .str ("Movie with title \"" ++ t ++ "\" not found"))]⟩,
       ⟨1, 1⟩) := by
  simp [find_movie_by_title, pyGet, pyFalsy, ht, htne, get_mongodb_client,
        get_secret, hsec, hcs, hconn, hfind, pyStr]

/-- C1 amended witness: the Zorblax lookup in the empty store. -/
theorem find_movie_by_title_not_found_200_witness :
    lookupKv "title" [("title", Json.str "Zorblax")] = some (.str "Zorblax")
    ∧ "Zorblax" ≠ ""
    ∧ wEmptyStore.secretOutcome = .ok "mongodb+srv://user:pw@cluster.example.net"
    ∧ "mongodb+srv://user:pw@cluster.example.net" ≠ ""
    ∧ wEmptyStore.connect "mongodb+srv://user:pw@cluster.example.net" = .ok ()
    ∧ wEmptyStore.findOne (buildTitleQuery (.str "Zorblax")) titleProjection
        = .ok none
    ∧ find_movie_by_title wEmptyStore
        (.ok (.obj [("title", Json.str "Zorblax")])) =
      (⟨200, .obj [("success", .bool false),
          ("message", .str ("Movie with title \"" ++ "Zorblax"
            ++ "\" not found"))]⟩,
       ⟨1, 1⟩) :=
  ⟨rfl, by decide, rfl, by decide, rfl, rfl,
   find_movie_by_title_not_found_200 wEmptyStore
     [("title", Json.str "Zorblax")] "Zorblax"
     "mongodb+srv://user:pw@cluster.example.net"
     rfl (by decide) rfl (by decide) rfl rfl⟩

/-- C5 counterexample: with the secret store denying access with a
concrete underlying message, the search handler answers 500 whose body
carries the fixed connection-string-not-found message, which differs
from the underlying error message — so the response does not carry the
underlying message. -/
theorem secret_error_message_counterexample :
    (find_movies wSecretDenied
        (.ok (.obj [("query", Json.str "space")]))).1.status = 500
    ∧ (find_movies wSecretDenied
        (.ok (.obj [("query", Json.str "space")]))).1.body
        = errBody "MongoDB connection string not found in secrets"
    ∧ wSecretDenied.secretOutcome
        = .error "403 permission denied on secret mongodb-connection-string"
    ∧ "MongoDB connection string not found in secrets"
        ≠ "403 permission denied on secret mongodb-connection-string" :=
  ⟨rfl, rfl, rfl, by decide⟩

/-- C5 amended: when the secret resolver fails for any reason, both
POST handlers answer 500 with the fixed message that the connection
string was not found (the underlying secret-store message is only
logged, not returned); the secret is fetched exactly once, the store
is never accessed, no retry happens and no default credential is
substituted — the outcome is the same for every connect, aggregate and
lookup behaviour of the world. -/
theorem secret_failure_500 (w : World) (m : String)
    (kvs kvs2 : List (String × Json)) (q t : String)
    (hsec : w.secretOutcome = .error m)
    (hq : lookupKv "query" kvs = some (.str q)) (hqne : q ≠ "")
    (ht : lookupKv "title" kvs2 = some (.str t)) (htne : t ≠ "") :
    find_movies w (.ok (.obj kvs)) =
      (⟨500, errBody "MongoDB connection string not found in secrets"⟩, ⟨1, 0⟩)
    ∧ find_movie_by_title w (.ok (.obj kvs2)) =
      (⟨500, errBody "MongoDB connection string not found in secrets"⟩, ⟨1, 0⟩) := by
  constructor
  · simp [find_movies, pyGet, pyFalsy, hq, hqne,
          get_mongodb_client, get_secret, hsec]
  · simp [find_movie_by_title, pyGet, pyFalsy, ht, htne,
          get_mongodb_client, get_secret, hsec]

/-- C5 amended witness: the denied-secret world with concrete bodies. -/
theorem secret_failure_500_witness :
    wSecretDenied.secretOutcome
      = .error "403 permission denied on secret mongodb-connection-string"
    ∧ lookupKv "query" [("query", Json.str "space")] = some (.str "space")
    ∧ "space" ≠ ""
    ∧ lookupKv "title" [("title", Json.str "Dune")] = some (.str "Dune")
    ∧ "Dune" ≠ ""
    ∧ find_movies wSecretDenied (.ok (.obj [("query", Json.str "space")])) =
      (⟨500, errBody "MongoDB connection string not found in secrets"⟩, ⟨1, 0⟩)
    ∧ find_movie_by_title wSecretDenied (.ok (.obj [("title", Json.str "Dune")])) =
      (⟨500, errBody "MongoDB connection string not found in secrets"⟩, ⟨1, 0⟩) := by
  refine ⟨rfl, rfl, by decide, rfl, by decide, ?_, ?_⟩
  · exact (secret_failure_500 wSecretDenied
      "403 permission denied on secret mongodb-connection-string"
      [("query", Json.str "space")] [("title", Json.str "Dune")]
      "space" "Dune" rfl rfl (by decide) rfl (by decide)).1
  · exact (secret_failure_500 wSecretDenied
      "403 permission denied on secret mongodb-connection-string"
      [("query", Json.str "space")] [("title", Json.str "Dune")]
      "space" "Dune" rfl rfl (by decide) rfl (by decide)).2

/-- C3: for every non-empty query string, on the success path the
search endpoint answers success=true with the (possibly empty) result
list, a count equal to the length of that list, and — whenever the
store honors the limit stage of the pipeline it is sent — at most the
requested number of results, the requested limit being the value of
the limit field, or 10 when the caller supplies none.  An empty result
list is still success=true. -/
theorem find_movies_success (w : World) (kvs : List (String × Json))
    (q cs : String) (lim : Int) (rs : List Json)
    (hstore : StoreHonorsLimit w)
    (hq : lookupKv "query" kvs = some (.str q)) (hqne : q ≠ "")
    (hlim : lookupKv "limit" kvs = some (.int lim)
            ∨ (lookupKv "limit" kvs = none ∧ lim = 10))
    (hsec : w.secretOutcome = .ok cs) (hcs : cs ≠ "")
    (hconn : w.connect cs = .ok ())
    (hagg : w.aggregate (buildSearchPipeline (.str q) (.int lim)) = .ok rs) :
    find_movies w (.ok (.obj kvs)) =
      (⟨200, .obj [("success", .bool true), ("query", .str q),
                   ("results", .arr (rs.map convertId)),
                   ("count", .int ((rs.map convertId).length))]⟩, ⟨1, 1⟩)
    ∧ ((rs.map convertId).length : Int) ≤ lim
    ∧ (rs.map convertId).length = rs.length := by
  have hlen : ((rs.map convertId).length : Int) ≤ lim := by
    simpa using hstore (.str q) lim rs hagg
  refine ⟨?_, hlen, by simp⟩
  rcases hlim with h | ⟨h, rfl⟩ <;>
    simp [find_movies, pyGet, pyFalsy, hq, hqne, h,
          get_mongodb_client, get_secret, hsec, hcs, hconn, hagg]

/-- C3 witness: query space adventure, limit 3, against the store that
enforces the limit stage and matches nothing: success with the empty
list and count 0. -/
theorem find_movies_success_witness :
    StoreHonorsLimit wLimitStore
    ∧ lookupKv "query"
        [("query", Json.str "space adventure"), ("limit", Json.int 3)]
        = some (.str "space adventure")
    ∧ "space adventure" ≠ ""
    ∧ (lookupKv "limit"
        [("query", Json.str "space adventure"), ("limit", Json.int 3)]
        = some (.int 3)
       ∨ (lookupKv "limit"
            [("query", Json.str "space adventure"), ("limit", Json.int 3)]
            = none ∧ (3 : Int) = 10))
    ∧ wLimitStore.secretOutcome = .ok "mongodb+srv://user:pw@cluster.example.net"
    ∧ "mongodb+srv://user:pw@cluster.example.net" ≠ ""
    ∧ wLimitStore.connect "mongodb+srv://user:pw@cluster.example.net" = .ok ()
    ∧ wLimitStore.aggregate
        (buildSearchPipeline (.str "space adventure") (.int 3)) = .ok []
    ∧ find_movies wLimitStore
        (.ok (.obj [("query", Json.str "space adventure"), ("limit", Json.int 3)]))
        = (⟨200, .obj [("success", .bool true),
                       ("query", .str "space adventure"),
                       ("results", .arr []), ("count", .int 0)]⟩, ⟨1, 1⟩)
    ∧ ((0 : Nat) : Int) ≤ 3 :=
  ⟨wLimitStore_honors_limit, rfl, by decide, Or.inl rfl, rfl, by decide, rfl, rfl,
   (find_movies_success wLimitStore
      [("query", Json.str "space adventure"), ("limit", Json.int 3)]
      "space adventure" "mongodb+srv://user:pw@cluster.example.net" 3 []
      wLimitStore_honors_limit rfl (by decide) (Or.inl rfl) rfl (by decide)
      rfl rfl).1,
   by decide⟩

/-- C4: every record leaving either endpoint has a string identifier:
the search handler maps the id conversion over every result and the
title handler converts the single match, the converted id is always a
Json string, and the conversion is idempotent, so re-serializing the
response never yields a non-string identifier. -/
theorem returned_ids_are_strings (w : World) (kvs kvs2 : List (String × Json))
    (q t cs : String) (lim : Json) (rs : List Json) (movie movie2 : Json)
    (hq : lookupKv "query" kvs = some (.str q)) (hqne : q ≠ "")
    (hlim : lookupKv "limit" kvs = some lim)
    (hsec : w.secretOutcome = .ok cs) (hcs : cs ≠ "")
    (hconn : w.connect cs = .ok ())
    (hagg : w.aggregate (buildSearchPipeline (.str q) lim) = .ok rs)
    (ht : lookupKv "title" kvs2 = some (.str t)) (htne : t ≠ "")
    (hfind : w.findOne (buildTitleQuery (.str t)) titleProjection = .ok (some movie))
    (hset : setIdStr movie = .ok movie2) :
    find_movies w (.ok (.obj kvs)) =
      (⟨200, .obj [("success", .bool true), ("query", .str q),
                   ("results", .arr (rs.map convertId)),
                   ("count", .int ((rs.map convertId).length))]⟩, ⟨1, 1⟩)
    ∧ (∀ j ∈ rs.map convertId, idIsString j)
    ∧ find_movie_by_title w (.ok (.obj kvs2)) =
      (⟨200, .obj [("success", .bool true), ("movie", movie2)]⟩, ⟨1, 1⟩)
    ∧ idIsString movie2
    ∧ (∀ j : Json, convertId (convertId j) = convertId j) := by
  refine ⟨?_, ?_, ?_, idIsString_setIdStr movie movie2 hset, convertId_convertId⟩
  · simp [find_movies, pyGet, pyFalsy, hq, hqne, hlim,
          get_mongodb_client, get_secret, hsec, hcs, hconn, hagg]
  · intro j hj
    rcases List.mem_map.mp hj with ⟨j0, _, rfl⟩
    exact idIsString_convertId j0
  · simp [find_movie_by_title, pyGet, pyFalsy, ht, htne,
          get_mongodb_client, get_secret, hsec, hcs, hconn, hfind, hset]

/-- C4 witness: the store returns `movieDoc`, whose identifier is a
store-native ObjectId, on both paths; the responses carry it as a
plain string. -/
theorem returned_ids_are_strings_witness :
    lookupKv "query" [("query", Json.str "matrix"), ("limit", Json.int 10)]
      = some (.str "matrix")
    ∧ "matrix" ≠ ""
    ∧ lookupKv "limit" [("query", Json.str "matrix"), ("limit", Json.int 10)]
      = some (.int 10)
    ∧ wDocs.secretOutcome = .ok "mongodb+srv://user:pw@cluster.example.net"
    ∧ wDocs.aggregate (buildSearchPipeline (.str "matrix") (.int 10))
        = .ok [movieDoc]
    ∧ lookupKv "title" [("title", Json.str "The Matrix")]
        = some (.str "The Matrix")
    ∧ wDocs.findOne (buildTitleQuery (.str "The Matrix")) titleProjection
        = .ok (some movieDoc)
    ∧ setIdStr movieDoc =
        .ok (.obj [("_id", .str "573a1390f29313caabcd4135"),
                   ("title", .str "The Matrix"), ("year", .int 1999)])
    ∧ (∀ j ∈ [movieDoc].map convertId, idIsString j)
    ∧ idIsString (.obj [("_id", .str "573a1390f29313caabcd4135"),
                        ("title", .str "The Matrix"), ("year", .int 1999)]) := by
  have happ := returned_ids_are_strings wDocs
    [("query", Json.str "matrix"), ("limit", Json.int 10)]
    [("title", Json.str "The Matrix")]
    "matrix" "The Matrix" "mongodb+srv://user:pw@cluster.example.net"
    (.int 10) [movieDoc] movieDoc
    (.obj [("_id", .str "573a1390f29313caabcd4135"),
           ("title", .str "The Matrix"), ("year", .int 1999)])
    rfl (by decide) rfl rfl (by decide) rfl rfl rfl (by decide) rfl rfl
  exact ⟨rfl, by decide, rfl, rfl, rfl, rfl, rfl, rfl, happ.2.1, happ.2.2.2.1⟩

/-- C6: the title-lookup filter matches the title field with a regular
expression that is the caller string verbatim (no escaping) under the
case-insensitive option, and the title projection is exactly the
search projection with the relevance-score field removed. -/
theorem title_query_shape (t : String) (_htne : t ≠ "") :
    buildTitleQuery (.str t)
      = .obj [("title", .obj [("$regex", .str t), ("$options", .str "i")])]
    ∧ titleProjection
      = .obj (searchProjectionKvs.filter (fun kv => kv.1 != "score"))
    ∧ lookupKv "score" (fieldsOf titleProjection) = none
    ∧ lookupKv "score" (fieldsOf searchProjection)
      = some (.obj [("$meta", .str "searchScore")]) :=
  ⟨rfl, rfl, rfl, rfl⟩

/-- C6 witness: the filter and projection at the title Matrix. -/
theorem title_query_shape_witness :
    "Matrix" ≠ ""
    ∧ buildTitleQuery (.str "Matrix")
      = .obj [("title", .obj [("$regex", .str "Matrix"),
                              ("$options", .str "i")])] :=
  ⟨by decide, (title_query_shape "Matrix" (by decide)).1⟩

/-- C7: for every non-empty query and every limit value, the search
pipeline is exactly three stages in order — the text search on the
fixed index with a wildcard path, the limit stage with the requested
limit, and the projection carrying the store-computed relevance
score — and no stage of the pipeline is a sort stage. -/
theorem search_pipeline_shape (q : String) (lim : Json) (_hqne : q ≠ "") :
    (buildSearchPipeline (.str q) lim).length = 3
    ∧ (buildSearchPipeline (.str q) lim).get? 0 =
        some (.obj [("$search",
          .obj [("index", .str "movies_search_index"),
                ("text", .obj [("query", .str q),
                               ("path", .obj [("wildcard", .str "*")])])])])
    ∧ (buildSearchPipeline (.str q) lim).get? 1 =
        some (.obj [("$limit", lim)])
    ∧ (buildSearchPipeline (.str q) lim).get? 2 =
        some (.obj [("$project", searchProjection)])
    ∧ lookupKv "score" (fieldsOf searchProjection)
        = some (.obj [("$meta", .str "searchScore")])
    ∧ (∀ st ∈ buildSearchPipeline (.str q) lim,
        lookupKv "$sort" (fieldsOf st) = none) := by
  refine ⟨rfl, rfl, rfl, rfl, rfl, ?_⟩
  intro st hst
  simp only [buildSearchPipeline, List.mem_cons, List.not_mem_nil,
             or_false] at hst
  rcases hst with rfl | rfl | rfl <;> rfl

/-- C7 witness: the pipeline at query space adventure and limit 3. -/
theorem search_pipeline_shape_witness :
    "space adventure" ≠ ""
    ∧ (buildSearchPipeline (.str "space adventure") (.int 3)).get? 1 =
        some (.obj [("$limit", .int 3)])
    ∧ (∀ st ∈ buildSearchPipeline (.str "space adventure") (.int 3),
        lookupKv "$sort" (fieldsOf st) = none) := by
  have happ := search_pipeline_shape "space adventure" (.int 3) (by decide)
  exact ⟨by decide, happ.2.2.1, happ.2.2.2.2.2⟩

/-- C10: the caller-supplied limit value is forwarded verbatim and
unvalidated into the limit stage of the pipeline, for every JSON value
whatsoever; when the store rejects the pipeline, the handler answers
500 with the store error, not a 400 validation response. -/
theorem limit_forwarded_unvalidated (w : World) (kvs : List (String × Json))
    (q cs e : String) (lim : Json)
    (hq : lookupKv "query" kvs = some (.str q)) (hqne : q ≠ "")
    (hlim : lookupKv "limit" kvs = some lim)
    (hsec : w.secretOutcome = .ok cs) (hcs : cs ≠ "")
    (hconn : w.connect cs = .ok ())
    (hagg : w.aggregate (buildSearchPipeline (.str q) lim) = .error e) :
    (buildSearchPipeline (.str q) lim).get? 1 = some (.obj [("$limit", lim)])
    ∧ find_movies w (.ok (.obj kvs)) = (⟨500, errBody e⟩, ⟨1, 1⟩)
    ∧ (find_movies w (.ok (.obj kvs))).1.status ≠ 400 := by
  have h2 : find_movies w (.ok (.obj kvs)) = (⟨500, errBody e⟩, ⟨1, 1⟩) := by
    simp [find_movies, pyGet, pyFalsy, hq, hqne, hlim,
          get_mongodb_client, get_secret, hsec, hcs, hconn, hagg]
  exact ⟨rfl, h2, by simp [h2]⟩

/-- C10 witness: the negative limit -5 is forwarded verbatim; the
limit-enforcing store rejects it and the handler answers 500. -/
theorem limit_forwarded_unvalidated_witness :
    lookupKv "query" [("query", Json.str "space"), ("limit", Json.int (-5))]
      = some (.str "space")
    ∧ "space" ≠ ""
    ∧ lookupKv "limit" [("query", Json.str "space"), ("limit", Json.int (-5))]
      = some (.int (-5))
    ∧ wLimitStore.aggregate (buildSearchPipeline (.str "space") (.int (-5)))
      = .error "BadValue in limit stage"
    ∧ (buildSearchPipeline (.str "space") (.int (-5))).get? 1
      = some (.obj [("$limit", .int (-5))])
    ∧ find_movies wLimitStore
        (.ok (.obj [("query", Json.str "space"), ("limit", Json.int (-5))]))
      = (⟨500, errBody "BadValue in limit stage"⟩, ⟨1, 1⟩) := by
  have happ := limit_forwarded_unvalidated wLimitStore
    [("query", Json.str "space"), ("limit", Json.int (-5))]
    "space" "mongodb+srv://user:pw@cluster.example.net"
    "BadValue in limit stage" (.int (-5))
    rfl (by decide) rfl rfl (by decide) rfl rfl
  exact ⟨rfl, by decide, rfl, rfl, happ.1, happ.2.1⟩

end MongoVertexApi
